import Mathlib

/-!
Verification development for the SDDR network core (`sddr_network.py`).

The Python source defines two classes:

* `Sddr_Param_Net` — per-distribution-parameter sub-network: a structured
  linear head, a dict of opaque deep sub-models, an orthogonalization layer
  removing the linear part of each deep output, a deep linear head, and a
  quadratic smoothing penalty over the structured weights.
* `SddrNet` — composite network: one `Sddr_Param_Net` per distribution
  parameter, a distribution-family collaborator mapping raw predictions to
  valid distribution parameters, log-loss and total-regularization queries.

Tensors are embedded in two complementary ways:

* `Matrix (Fin n) (Fin m) ℚ` (Mathlib) for the purely algebraic facts about
  `_orthog_layer` and the penalty quadratic form;
* `Mat := List (List ℚ)` (row-major lists) for the operational semantics of
  `forward`, dictionary lookups and shape errors, where widths vary
  dynamically.  Operations that raise shape errors in PyTorch (linear-layer
  application, dictionary indexing) return `Option`; `none` models the raised
  exception.

`torch.qr` is an external library primitive; the development is parameterized
over the function `qr : Mat → Mat` producing the Q factor.
-/

namespace PySDDR

open Matrix

/-! ### Matrix embedding of `Sddr_Param_Net._orthog_layer` (source lines 67–74)

The source computes `Projection_Matrix = Q @ Q.T` and
`Utilde = Uhat - Projection_Matrix @ Uhat`. -/

def Sddr_Param_Net.orthog_layer {n k m : ℕ} (Q : Matrix (Fin n) (Fin k) ℚ)
    (Uhat : Matrix (Fin n) (Fin m) ℚ) : Matrix (Fin n) (Fin m) ℚ :=
  Uhat - (Q * Qᵀ) * Uhat

/-! ### Matrix embedding of `Sddr_Param_Net.get_regularization` (lines 111–117)

The source computes `weights @ P @ weights.T` with `weights` the
`1 × struct_shapes` structured-head weight row.  (The numpy→torch conversion
and device move on lines 112–114 do not change the value.) -/

def Sddr_Param_Net.get_regularizationM {p : ℕ} (weights : Matrix (Fin 1) (Fin p) ℚ)
    (P : Matrix (Fin p) (Fin p) ℚ) : Matrix (Fin 1) (Fin 1) ℚ :=
  weights * P * weightsᵀ

/-- Positive semi-definiteness of the penalty matrix, stated as
nonnegativity of the quadratic form (the spec's hypothesis on `P`). -/
def IsPosSemidef {p : ℕ} (P : Matrix (Fin p) (Fin p) ℚ) : Prop :=
  ∀ x : Fin p → ℚ, 0 ≤ x ⬝ᵥ P.mulVec x

/-- Claim C3: for every `Q` with orthonormal columns (`Qᵀ * Q = 1`) and every
`Uhat` with the same row count, the orthogonalization layer's residual
`Uhat - Q Qᵀ Uhat` satisfies `Qᵀ * (Uhat - Q Qᵀ Uhat) = 0`: the residual has
no component in the column space of `Q`. -/
theorem orthog_layer_residual_orthogonal {n k m : ℕ} (Q : Matrix (Fin n) (Fin k) ℚ)
    (Uhat : Matrix (Fin n) (Fin m) ℚ) (h : Qᵀ * Q = 1) :
    Qᵀ * Sddr_Param_Net.orthog_layer Q Uhat = 0 := by
  unfold Sddr_Param_Net.orthog_layer
  rw [Matrix.mul_sub]
  have key : Qᵀ * ((Q * Qᵀ) * Uhat) = Qᵀ * Uhat := by
    rw [← Matrix.mul_assoc, ← Matrix.mul_assoc, h, Matrix.one_mul]
  rw [key, sub_self]

/-- Witness for C3 at `Q = 1`, `Uhat = [[3]]`. -/
theorem orthog_layer_residual_orthogonal_witness :
    (1 : Matrix (Fin 1) (Fin 1) ℚ)ᵀ *
      Sddr_Param_Net.orthog_layer (1 : Matrix (Fin 1) (Fin 1) ℚ) !![(3 : ℚ)] = 0 :=
  orthog_layer_residual_orthogonal 1 !![(3 : ℚ)] (by simp)

/-- Claim C4: the orthogonalization layer is idempotent: for every `Q` with
orthonormal columns and every `Uhat` of matching row count, applying the
layer to an already-projected result returns it unchanged. -/
theorem orthog_layer_idempotent {n k m : ℕ} (Q : Matrix (Fin n) (Fin k) ℚ)
    (Uhat : Matrix (Fin n) (Fin m) ℚ) (h : Qᵀ * Q = 1) :
    Sddr_Param_Net.orthog_layer Q (Sddr_Param_Net.orthog_layer Q Uhat) =
      Sddr_Param_Net.orthog_layer Q Uhat := by
  have key : (Q * Qᵀ) * ((Q * Qᵀ) * Uhat) = (Q * Qᵀ) * Uhat := by
    rw [← Matrix.mul_assoc, ← Matrix.mul_assoc (Q * Qᵀ) Q Qᵀ,
      Matrix.mul_assoc Q Qᵀ Q, h, Matrix.mul_one]
  unfold Sddr_Param_Net.orthog_layer
  rw [Matrix.mul_sub, key, sub_self, sub_zero]

/-- Witness for C4 at `Q = 1`, `Uhat = [[2]]`. -/
theorem orthog_layer_idempotent_witness :
    Sddr_Param_Net.orthog_layer (1 : Matrix (Fin 1) (Fin 1) ℚ)
      (Sddr_Param_Net.orthog_layer (1 : Matrix (Fin 1) (Fin 1) ℚ) !![(2 : ℚ)]) =
      Sddr_Param_Net.orthog_layer (1 : Matrix (Fin 1) (Fin 1) ℚ) !![(2 : ℚ)] :=
  orthog_layer_idempotent 1 !![(2 : ℚ)] (by simp)

/-- Claim C7: whenever the penalty matrix `P` is positive semi-definite, the
penalty `weights @ P @ weights.T` is non-negative, for an arbitrary
structured weight row. -/
theorem get_regularizationM_nonneg {p : ℕ} (weights : Matrix (Fin 1) (Fin p) ℚ)
    (P : Matrix (Fin p) (Fin p) ℚ) (hP : IsPosSemidef P) :
    0 ≤ Sddr_Param_Net.get_regularizationM weights P 0 0 := by
  have key : Sddr_Param_Net.get_regularizationM weights P 0 0
      = (fun j => weights 0 j) ⬝ᵥ P.mulVec (fun j => weights 0 j) := by
    simp only [Sddr_Param_Net.get_regularizationM, Matrix.mul_apply,
      Matrix.transpose_apply, Matrix.mulVec, Matrix.dotProduct, Finset.sum_mul,
      Finset.mul_sum]
    rw [Finset.sum_comm]
    apply Finset.sum_congr rfl
    intro i _
    apply Finset.sum_congr rfl
    intro j _
    ring
  rw [key]
  exact hP _

/-- Witness for C7 at `weights = [[5]]`, `P = 0` (which is PSD). -/
theorem get_regularizationM_nonneg_witness :
    0 ≤ Sddr_Param_Net.get_regularizationM !![(5 : ℚ)] (0 : Matrix (Fin 1) (Fin 1) ℚ) 0 0 :=
  get_regularizationM_nonneg !![(5 : ℚ)] 0 (by intro x; simp [Matrix.mulVec])

/-! ### List-matrix embedding of the tensor operations

Row-major matrices of rationals.  Dimensions live in the data, matching the
dynamically-shaped PyTorch tensors in `forward`. -/

abbrev Mat : Type := List (List ℚ)

/-- Dot product of two rows (truncating at the shorter, used only where the
surrounding shape checks guarantee equal lengths). -/
def dotL (xs ys : List ℚ) : ℚ := (List.zipWith (· * ·) xs ys).sum

/-- Column count, read off the first row. -/
def ncolsL (A : Mat) : ℕ := (A.headD []).length

/-- Column `j` of `A` as a list (one entry per row). -/
def getColL (A : Mat) (j : ℕ) : List ℚ := A.map (fun r => r.getD j 0)

/-- `A.T` (torch transpose). -/
def transposeL (A : Mat) : Mat := (List.range (ncolsL A)).map (fun j => getColL A j)

/-- `A @ B` (torch matmul) for shape-compatible arguments. -/
def matmulL (A B : Mat) : Mat :=
  A.map (fun r => (List.range (ncolsL B)).map (fun j => dotL r (getColL B j)))

/-- Entrywise `A + B`. -/
def addMatL (A B : Mat) : Mat :=
  List.zipWith (fun r s => List.zipWith (· + ·) r s) A B

/-- Entrywise `A - B`. -/
def subMatL (A B : Mat) : Mat :=
  List.zipWith (fun r s => List.zipWith (· - ·) r s) A B

/-- Entrywise negation, for `-log_prob`. -/
def negMatL (A : Mat) : Mat := A.map (fun r => r.map (fun x => -x))

/-- `torch.cat([A, B], dim=1)`: rows appended pairwise. -/
def hcatL (A B : Mat) : Mat := List.zipWith (· ++ ·) A B

/-- `torch.cat(list, dim=1)` over a non-empty list of blocks. -/
def hcatListL : List Mat → Mat
  | [] => []
  | [A] => A
  | A :: rest => hcatL A (hcatListL rest)

/-- `X[:, sl]`: the columns of `X` named by the index group `sl`. -/
def colSelect (X : Mat) (sl : List ℕ) : Mat :=
  X.map (fun r => sl.map (fun j => r.getD j 0))

/-- Application of a bias-free `nn.Linear(in_features, 1)` layer with weight
row `w` to a batch `X`; PyTorch raises a shape error (here `none`) when a
row's width differs from `in_features`. -/
def applyLinearL (w : List ℚ) (X : Mat) : Option Mat :=
  if X.all (fun r => r.length == w.length) then
    some (X.map (fun r => [dotL r w]))
  else none

/-- Python `dict` lookup on an association list (`d[k]`, raising `KeyError`
→ `none` when the key is absent). -/
def lookupA {β : Type} : List (String × β) → String → Option β
  | [], _ => none
  | (k, v) :: rest, key => if k = key then some v else lookupA rest key

/-! Small rewriting helpers for `Option` do-blocks. -/

@[simp] theorem optBind_some {α β : Type} (a : α) (f : α → Option β) :
    (do let x ← some a; f x) = f a := rfl

@[simp] theorem optBind_none {α β : Type} (f : α → Option β) :
    (do let x ← (none : Option α); f x) = none := rfl

@[simp] theorem optPure_eq_some {α : Type} (a : α) : (pure a : Option α) = some a := rfl

/-! ### `Sddr_Param_Net` (source lines 10–117), list-matrix rendering

Field names follow the Python attributes.  The two `nn.Linear(_, 1, bias =
False)` heads are represented by their weight rows.  Deep sub-models are
opaque callables `Mat → Mat`; orthogonalization-pattern groups are lists of
column indices. -/

structure Sddr_Param_Net where
  deep_models_dict : List (String × (Mat → Mat))
  deep_shapes : List (String × ℕ)
  struct_shapes : ℕ
  orthogonalization_pattern : List (String × List (List ℕ))
  P : Mat
  structured_head : List ℚ
  deep_head : List ℚ

/-- `self._deep_models_exist`, set in `__init__` from
`len(deep_models_dict) != 0` (lines 58–63) and never mutated afterwards. -/
def Sddr_Param_Net.deep_models_exist (net : Sddr_Param_Net) : Bool :=
  !net.deep_models_dict.isEmpty

/-- `_orthog_layer` (lines 67–74) on list matrices:
`Projection_Matrix = Q @ Q.T`, `Utilde = Uhat - Projection_Matrix @ Uhat`. -/
def orthog_layerL (Q Uhat : Mat) : Mat :=
  subMatL Uhat (matmulL (matmulL Q (transposeL Q)) Uhat)

/-- The loop body of `forward` (lines 82–97): iterate over
`deep_models_dict` accumulating `Utilde_list` (Python list `append`); a
failed `datadict[key]` or `orthogonalization_pattern[key]` lookup aborts. -/
def utildeLoop (qr : Mat → Mat) (net : Sddr_Param_Net) (X : Mat)
    (datadict : List (String × Mat)) :
    List (String × (Mat → Mat)) → List Mat → Option (List Mat)
  | [], acc => some acc
  | kf :: rest, acc => do
    let inp ← lookupA datadict kf.1
    let Uhat_net := kf.2 inp
    let pat ← lookupA net.orthogonalization_pattern kf.1
    let Utilde_net :=
      if 0 < pat.length then
        orthog_layerL (qr (hcatListL (pat.map (fun sl => colSelect X sl)))) Uhat_net
      else Uhat_net
    utildeLoop qr net X datadict rest (acc ++ [Utilde_net])

/-- `Sddr_Param_Net.forward` (lines 77–109).  `qr` is the Q factor of
`torch.qr`, an external primitive.  In the no-deep-models branch the source
sets `deep_pred = 0` (the Python integer) and returns
`structured_pred + 0 = structured_pred`. -/
def Sddr_Param_Net.forward (qr : Mat → Mat) (net : Sddr_Param_Net)
    (datadict : List (String × Mat)) : Option Mat := do
  let X ← lookupA datadict "structured"
  if net.deep_models_exist then do
    let Utilde_list ← utildeLoop qr net X datadict net.deep_models_dict []
    let Utilde := hcatListL Utilde_list
    let deep_pred ← applyLinearL net.deep_head Utilde
    let structured_pred ← applyLinearL net.structured_head X
    pure (addMatL structured_pred deep_pred)
  else do
    let structured_pred ← applyLinearL net.structured_head X
    pure structured_pred

/-- `Sddr_Param_Net.get_regularization` (lines 111–117), list-matrix
rendering: `weights @ P @ weights.T` with `weights` the `1 × struct_shapes`
row of the structured head. -/
def Sddr_Param_Net.get_regularization (net : Sddr_Param_Net) : Mat :=
  matmulL (matmulL [net.structured_head] net.P) (transposeL [net.structured_head])

/-! ### `SddrNet` (source lines 120–202)

The distribution family is an external collaborator (`family_class`): it
supplies `get_distribution_trafos`, a distribution constructor
(`get_distribution_layer_type`), and the instance's `log_prob` method.  `D`
is the opaque type of distribution instances. -/

structure Family (D : Type) where
  get_distribution_trafos : List (String × Mat) → List (String × Mat)
  get_distribution_layer_type : List (String × Mat) → D
  log_prob : D → Mat → Mat

/-- One value of `network_info_dict` (lines 159–164). -/
structure NetworkInfo where
  deep_models_dict : List (String × (Mat → Mat))
  deep_shapes : List (String × ℕ)
  struct_shapes : ℕ
  orthogonalization_pattern : List (String × List (List ℕ))
  P : Mat

/-- The mutable attributes of a `SddrNet` object.  `regularization` and
`distribution_layer` are attributes first assigned inside `forward`; before
the first `forward` call they do not exist on the Python object (reading
them raises `AttributeError`), modelled by `none`. -/
structure SddrNet (D : Type) where
  family_class : Family D
  single_parameter_sddr_list : List (String × Sddr_Param_Net)
  distribution_layer_type : List (String × Mat) → D
  regularization : Option ℚ
  distribution_layer : Option D

/-- `Sddr_Param_Net.__init__` (lines 45–63) as invoked from
`SddrNet.__init__`.  `nn.Linear` draws its initial weights from the library
RNG; `winit l` stands for a freshly drawn weight row of length `l`.  The
deep head exists only when deep models do (lines 58–63); its in-width is the
sum of the declared `deep_shapes`. -/
def Sddr_Param_Net.init (info : NetworkInfo) (winit : ℕ → List ℚ) : Sddr_Param_Net :=
  { deep_models_dict := info.deep_models_dict
    deep_shapes := info.deep_shapes
    struct_shapes := info.struct_shapes
    orthogonalization_pattern := info.orthogonalization_pattern
    P := info.P
    structured_head := winit info.struct_shapes
    deep_head :=
      if info.deep_models_dict.isEmpty then []
      else winit ((info.deep_shapes.map Prod.snd).sum) }

/-- `SddrNet.__init__` (lines 154–174): builds one `Sddr_Param_Net` per
entry of `network_info_dict` (an empty dict simply yields an empty
registry), then reads the distribution constructor off the family. -/
def SddrNet.init {D : Type} (family_class : Family D)
    (network_info_dict : List (String × NetworkInfo)) (winit : ℕ → List ℚ) :
    SddrNet D :=
  { family_class := family_class
    single_parameter_sddr_list :=
      network_info_dict.map (fun kv => (kv.1, Sddr_Param_Net.init kv.2 winit))
    distribution_layer_type := family_class.get_distribution_layer_type
    regularization := none
    distribution_layer := none }

/-- The `pred` dictionary built by the loop in `SddrNet.forward` (lines
179–182): iterate over the keys of the supplied `datadict`;
`self.single_parameter_sddr_list[parameter_name]` raises `KeyError`
(`none`) for an unregistered key. -/
def SddrNet.predDict {D : Type} (qr : Mat → Mat) (s : SddrNet D)
    (datadict : List (String × List (String × Mat))) :
    Option (List (String × Mat)) :=
  datadict.mapM (fun pd => do
    let sddr_net ← lookupA s.single_parameter_sddr_list pd.1
    let p ← Sddr_Param_Net.forward qr sddr_net pd.2
    pure (pd.1, p))

/-- `SddrNet.forward` (lines 176–188): sets `self.regularization = 0`,
collects per-parameter predictions, applies the family transforms,
instantiates and stores the distribution layer, and returns it.  The updated
object state is returned alongside the result.  (The Python code assigns
`self.regularization = 0` before the loop; an aborted pass is modelled as
`none`, discarding that partial write.) -/
def SddrNet.forward {D : Type} (qr : Mat → Mat) (s : SddrNet D)
    (datadict : List (String × List (String × Mat))) :
    Option (SddrNet D × D) := do
  let pred ← SddrNet.predDict qr s datadict
  let predicted_parameters := s.family_class.get_distribution_trafos pred
  let dl := s.distribution_layer_type predicted_parameters
  pure ({ s with regularization := some 0, distribution_layer := some dl }, dl)

/-- `SddrNet.get_log_loss` (lines 190–194): `-self.distribution_layer
.log_prob(Y)`; reading `self.distribution_layer` before any `forward` call
raises `AttributeError` (`none`). -/
def SddrNet.get_log_loss {D : Type} (s : SddrNet D) (Y : Mat) : Option Mat :=
  match s.distribution_layer with
  | none => none
  | some d => some (negMatL (s.family_class.log_prob d Y))

/-- `SddrNet.get_regularization` (lines 196–202): `regularization = 0`,
then `+=` of each sub-network's 1×1 penalty tensor.  The Python integer `0`
that seeds the sum broadcasts against 1×1 tensors; it is modelled as the
1×1 zero matrix. -/
def SddrNet.get_regularization {D : Type} (s : SddrNet D) : Mat :=
  s.single_parameter_sddr_list.foldl
    (fun acc kv => addMatL acc kv.2.get_regularization) [[0]]

/-! ### Spec-side decomposition of `Sddr_Param_Net.forward` (claim C1)

These definitions follow §4.2 of the spec: per-sub-model orthogonalized
output, column-wise concatenation, deep head, structured head. -/

/-- One deep sub-model's contribution, per the spec: apply the sub-model to
its named input, and if its orthogonalization pattern is non-empty, project
onto the orthogonal complement of the QR basis of the concatenated
structured-column groups. -/
def utildeOf (qr : Mat → Mat) (net : Sddr_Param_Net) (X : Mat)
    (datadict : List (String × Mat)) (kf : String × (Mat → Mat)) : Option Mat := do
  let inp ← lookupA datadict kf.1
  let Uhat_net := kf.2 inp
  let pat ← lookupA net.orthogonalization_pattern kf.1
  pure (if 0 < pat.length then
      orthog_layerL (qr (hcatListL (pat.map (fun sl => colSelect X sl)))) Uhat_net
    else Uhat_net)

/-- Spec-side structured prediction: `X · structured_weights`. -/
def structured_predSpec (net : Sddr_Param_Net) (X : Mat) : Option Mat :=
  applyLinearL net.structured_head X

/-- Spec-side deep prediction: sub-model contributions in enumeration
order, concatenated column-wise and fed to the deep head. -/
def deep_predSpec (qr : Mat → Mat) (net : Sddr_Param_Net) (X : Mat)
    (datadict : List (String × Mat)) : Option Mat := do
  let utl ← net.deep_models_dict.mapM (utildeOf qr net X datadict)
  applyLinearL net.deep_head (hcatListL utl)

/-- The accumulating loop of `forward` agrees with a `mapM` of the
per-sub-model contribution. -/
theorem utildeLoop_eq_mapM (qr : Mat → Mat) (net : Sddr_Param_Net) (X : Mat)
    (datadict : List (String × Mat)) :
    ∀ (l : List (String × (Mat → Mat))) (acc : List Mat),
      utildeLoop qr net X datadict l acc =
        (l.mapM (utildeOf qr net X datadict)).map (fun us => acc ++ us)
  | [], acc => by
    show some acc = Option.map (fun us => acc ++ us) (some [])
    simp
  | kf :: rest, acc => by
    rw [List.mapM_cons]
    simp only [utildeLoop, utildeOf]
    cases h1 : lookupA datadict kf.1 with
    | none => rfl
    | some inp =>
      simp only [optBind_some]
      cases h2 : lookupA net.orthogonalization_pattern kf.1 with
      | none => rfl
      | some pat =>
        simp only [optBind_some, optPure_eq_some]
        rw [utildeLoop_eq_mapM qr net X datadict rest]
        cases hm : rest.mapM (utildeOf qr net X datadict) with
        | none => rfl
        | some us => simp

/-- Claim C1: for every batch dictionary holding the structured matrix `X`,
`forward` returns `structured_pred + deep_pred`, where `structured_pred`
is the structured head applied to `X` and `deep_pred` applies each deep
sub-model in enumeration order, orthogonalizes against the QR basis of its
pattern's column groups when the pattern is non-empty, concatenates
column-wise and applies the deep head; with no registered deep sub-models
the deep branch is skipped and the result is the structured prediction
alone (`deep_pred = 0`). -/
theorem forward_is_structured_plus_deep (qr : Mat → Mat) (net : Sddr_Param_Net)
    (datadict : List (String × Mat)) (X : Mat)
    (hX : lookupA datadict "structured" = some X) :
    Sddr_Param_Net.forward qr net datadict =
      if net.deep_models_exist then do
        let deep_pred ← deep_predSpec qr net X datadict
        let structured_pred ← structured_predSpec net X
        pure (addMatL structured_pred deep_pred)
      else structured_predSpec net X := by
  unfold Sddr_Param_Net.forward
  rw [hX]
  simp only [optBind_some]
  cases hde : net.deep_models_exist with
  | false =>
    simp only [Bool.false_eq_true, if_false, structured_predSpec]
    cases applyLinearL net.structured_head X <;> rfl
  | true =>
    simp only [if_true, deep_predSpec]
    rw [utildeLoop_eq_mapM]
    cases hm : net.deep_models_dict.mapM (utildeOf qr net X datadict) with
    | none => rfl
    | some utl =>
      simp only [Option.map_some', optBind_some, List.nil_append, structured_predSpec]

/-! ### Concrete instances used by witnesses and counterexamples -/

/-- Trivial stand-in for the `torch.qr` Q factor (never consulted by the
instances below, whose orthogonalization patterns are empty). -/
def qrId : Mat → Mat := fun A => A

/-- A deep-model-free sub-network: one structured feature, weight `3`. -/
def netW1 : Sddr_Param_Net :=
  { deep_models_dict := []
    deep_shapes := []
    struct_shapes := 1
    orthogonalization_pattern := []
    P := [[0]]
    structured_head := [3]
    deep_head := [] }

/-- A batch for `netW1`: two samples of the single structured feature. -/
def ddW1 : List (String × Mat) := [("structured", [[1], [2]])]

/-- Witness for C1 at `netW1`, `ddW1`. -/
theorem forward_is_structured_plus_deep_witness :
    lookupA ddW1 "structured" = some [[(1 : ℚ)], [2]] ∧
    Sddr_Param_Net.forward qrId netW1 ddW1 =
      (if netW1.deep_models_exist then do
        let deep_pred ← deep_predSpec qrId netW1 [[(1 : ℚ)], [2]] ddW1
        let structured_pred ← structured_predSpec netW1 [[(1 : ℚ)], [2]]
        pure (addMatL structured_pred deep_pred)
      else structured_predSpec netW1 [[(1 : ℚ)], [2]]) :=
  ⟨by decide,
   forward_is_structured_plus_deep qrId netW1 ddW1 [[(1 : ℚ)], [2]] (by decide)⟩

/-- Deep sub-model declared with width 3 but actually producing width 2. -/
def faC2 : Mat → Mat := fun _ => [[1, 2]]

/-- Deep sub-model declared with width 2 but actually producing width 3. -/
def fbC2 : Mat → Mat := fun _ => [[3, 4, 5]]

/-- Sub-network whose two deep sub-models both violate their declared
widths while the declared total (3 + 2) equals the actual total (2 + 3). -/
def netC2 : Sddr_Param_Net :=
  { deep_models_dict := [("a", faC2), ("b", fbC2)]
    deep_shapes := [("a", 3), ("b", 2)]
    struct_shapes := 1
    orthogonalization_pattern := [("a", []), ("b", [])]
    P := [[0]]
    structured_head := [2]
    deep_head := [1, 1, 1, 1, 1] }

/-- A batch for `netC2`. -/
def ddC2 : List (String × Mat) := [("structured", [[1]]), ("a", [[0]]), ("b", [[0]])]

/-- Counterexample to C2: sub-model "a" is declared with output width 3 but
actually produces width 2 (and "b" declared 2, actual 3); since the totals
coincide, `forward` raises no error at all — the mismatch is silently
tolerated and a prediction is returned. -/
theorem forward_width_mismatch_tolerated :
    lookupA netC2.deep_shapes "a" = some 3 ∧
    ncolsL (faC2 [[0]]) = 2 ∧
    Sddr_Param_Net.forward qrId netC2 ddC2 = some [[17]] := by
  refine ⟨by decide, by decide, ?_⟩
  norm_num +decide [Sddr_Param_Net.forward, Sddr_Param_Net.deep_models_exist, utildeLoop,
    applyLinearL, lookupA, hcatListL, hcatL, addMatL, dotL, netC2, faC2, fbC2, ddC2, qrId]

/-- Claim C2 (amended): no declared-versus-actual width check exists; a
width mismatch surfaces only as a shape error when the concatenated deep
outputs are fed to the deep head — i.e. only when the total actual width
differs from the declared total — and only after the sub-models and
orthogonalization arithmetic have completed; total-preserving mismatches
are silently tolerated. -/
theorem forward_width_error_at_deep_head (qr : Mat → Mat) (net : Sddr_Param_Net)
    (datadict : List (String × Mat)) (X : Mat) (utl : List Mat)
    (hX : lookupA datadict "structured" = some X)
    (hde : net.deep_models_exist = true)
    (hu : utildeLoop qr net X datadict net.deep_models_dict [] = some utl)
    (hw : (hcatListL utl).all (fun r => r.length == net.deep_head.length) = false) :
    Sddr_Param_Net.forward qr net datadict = none := by
  unfold Sddr_Param_Net.forward
  rw [hX]
  simp only [optBind_some, hde, if_true, hu, applyLinearL, hw]
  rfl

/-- Single deep sub-model declared width 3, actual width 2, so the total
mismatches and the deep head rejects the concatenated output. -/
def netC2b : Sddr_Param_Net :=
  { deep_models_dict := [("a", faC2)]
    deep_shapes := [("a", 3)]
    struct_shapes := 1
    orthogonalization_pattern := [("a", [])]
    P := [[0]]
    structured_head := [2]
    deep_head := [1, 1, 1] }

/-- A batch for `netC2b`. -/
def ddC2b : List (String × Mat) := [("structured", [[1]]), ("a", [[0]])]

/-- Witness for the amended C2: the sub-model evaluation and
orthogonalization loop complete (producing the width-2 output), and
`forward` then fails at the deep head. -/
theorem forward_width_error_at_deep_head_witness :
    (lookupA ddC2b "structured" = some [[(1 : ℚ)]] ∧
     netC2b.deep_models_exist = true ∧
     utildeLoop qrId netC2b [[(1 : ℚ)]] ddC2b netC2b.deep_models_dict [] =
       some [[[(1 : ℚ), 2]]] ∧
     (hcatListL [[[(1 : ℚ), 2]]]).all
       (fun r => r.length == netC2b.deep_head.length) = false) ∧
    Sddr_Param_Net.forward qrId netC2b ddC2b = none :=
  ⟨⟨by decide, by decide, by decide, by decide⟩,
   forward_width_error_at_deep_head qrId netC2b ddC2b [[(1 : ℚ)]] [[[(1 : ℚ), 2]]]
     (by decide) (by decide) (by decide) (by decide)⟩

/-- A trivial distribution-family collaborator over `Unit` instances. -/
def famTriv : Family Unit :=
  { get_distribution_trafos := fun l => l
    get_distribution_layer_type := fun _ => ()
    log_prob := fun _ _ => [[0]] }

/-- A deterministic weight initializer (all-ones rows). -/
def winit1 : ℕ → List ℚ := fun l => List.replicate l 1

/-- Config for a deep-model-free parameter with one structured feature and
penalty matrix `[[3]]`. -/
def infoC5 : NetworkInfo :=
  { deep_models_dict := []
    deep_shapes := []
    struct_shapes := 1
    orthogonalization_pattern := []
    P := [[3]] }

/-- Counterexample to C5: on a freshly constructed network (whose
`distribution_layer` attribute is still unset, i.e. no `forward` has run),
`get_regularization` does not fail — it returns the penalty value. -/
theorem regularization_before_forward_succeeds :
    (SddrNet.init famTriv [("eta", infoC5)] winit1).distribution_layer = none ∧
    SddrNet.get_regularization (SddrNet.init famTriv [("eta", infoC5)] winit1) = [[3]] := by
  constructor
  · rfl
  · have h1 : (SddrNet.init famTriv [("eta", infoC5)] winit1).single_parameter_sddr_list =
        [("eta", Sddr_Param_Net.init infoC5 winit1)] := rfl
    have h2 : (Sddr_Param_Net.init infoC5 winit1).structured_head = [1] := rfl
    have h3 : (Sddr_Param_Net.init infoC5 winit1).P = [[3]] := rfl
    unfold SddrNet.get_regularization
    rw [h1]
    have hr : List.range 1 = [0] := rfl
    norm_num [Sddr_Param_Net.get_regularization, h2, h3, matmulL, transposeL,
      ncolsL, getColL, dotL, addMatL, hr, List.getD]

/-- Claim C5 (amended): `get_log_loss` fails when called before any
`forward` (the stored distribution instance is absent), while
`get_regularization` never consults the distribution state and computes the
same value whatever that state is. -/
theorem get_log_loss_requires_forward {D : Type} (s : SddrNet D) (Y : Mat)
    (h : s.distribution_layer = none) :
    SddrNet.get_log_loss s Y = none ∧
    ∀ dl : Option D,
      SddrNet.get_regularization { s with distribution_layer := dl } =
        SddrNet.get_regularization s := by
  constructor
  · unfold SddrNet.get_log_loss
    rw [h]
  · intro dl
    rfl

/-- Witness for the amended C5 on a freshly constructed network. -/
theorem get_log_loss_requires_forward_witness :
    (SddrNet.init famTriv [("eta", infoC5)] winit1).distribution_layer = none ∧
    (SddrNet.get_log_loss (SddrNet.init famTriv [("eta", infoC5)] winit1) [[0]] = none ∧
     ∀ dl : Option Unit,
       SddrNet.get_regularization
           { SddrNet.init famTriv [("eta", infoC5)] winit1 with distribution_layer := dl } =
         SddrNet.get_regularization (SddrNet.init famTriv [("eta", infoC5)] winit1)) :=
  ⟨rfl, get_log_loss_requires_forward (SddrNet.init famTriv [("eta", infoC5)] winit1) [[0]] rfl⟩

/-- Counterexample to C8: constructing a composite network with zero
registered distribution parameters raises no error; the resulting object
has an empty registry and even answers `get_regularization` (with the empty
sum). -/
theorem init_empty_registry_succeeds :
    (SddrNet.init famTriv [] winit1).single_parameter_sddr_list = [] ∧
    SddrNet.get_regularization (SddrNet.init famTriv [] winit1) = [[0]] :=
  ⟨rfl, rfl⟩

/-! ### Claim C6: total regularization is the sum of per-parameter penalties -/

/-- Reading a list back off its indices. -/
theorem range_map_getD : ∀ l : List ℚ,
    (List.range l.length).map (fun j => l.getD j 0) = l
  | [] => rfl
  | a :: t => by
    have ih := range_map_getD t
    rw [List.length_cons, List.range_succ_eq_map, List.map_cons, List.map_map]
    simp only [List.getD_cons_zero, Function.comp_def, List.getD_cons_succ]
    rw [ih]

/-- Spec-side row-vector-by-matrix product `w · P`. -/
def vecMulL (w : List ℚ) (P : Mat) : List ℚ :=
  (List.range (ncolsL P)).map (fun j => dotL w (getColL P j))

/-- Spec-side penalty scalar: `structured_weights · P · structured_weightsᵗ`. -/
def penaltySpec (net : Sddr_Param_Net) : ℚ :=
  dotL (vecMulL net.structured_head net.P) net.structured_head

/-- A sub-network's `get_regularization` tensor is the 1×1 matrix holding
the spec's penalty scalar (for a non-empty weight row). -/
theorem get_regularization_eq_penaltySpec (net : Sddr_Param_Net)
    (h : net.structured_head ≠ []) :
    Sddr_Param_Net.get_regularization net = [[penaltySpec net]] := by
  obtain ⟨a, t, hw⟩ : ∃ a t, net.structured_head = a :: t := by
    cases hws : net.structured_head with
    | nil => exact absurd hws h
    | cons a t => exact ⟨a, t, rfl⟩
  have hT : transposeL [net.structured_head] =
      (List.range net.structured_head.length).map
        (fun j => [net.structured_head.getD j 0]) := by
    simp [transposeL, ncolsL, getColL]
  have hcol : getColL (transposeL [net.structured_head]) 0 = net.structured_head := by
    rw [hT]
    simp only [getColL, List.map_map, Function.comp_def, List.getD_cons_zero]
    exact range_map_getD net.structured_head
  have hnc : ncolsL (transposeL [net.structured_head]) = 1 := by
    rw [hT, hw]
    simp [ncolsL, List.length_cons, List.range_succ_eq_map]
  unfold Sddr_Param_Net.get_regularization
  rw [show matmulL [net.structured_head] net.P =
      [vecMulL net.structured_head net.P] from rfl]
  unfold matmulL
  rw [hnc]
  simp only [List.map_cons, List.map_nil, show List.range 1 = [0] from rfl, hcol]
  rfl

/-- Accumulating `addMatL` over 1×1 penalty tensors sums the scalars. -/
theorem foldl_addMatL_penalty :
    ∀ (l : List (String × Sddr_Param_Net)) (c : ℚ),
      (∀ kv ∈ l, kv.2.structured_head ≠ []) →
      l.foldl (fun acc kv => addMatL acc kv.2.get_regularization) [[c]] =
        [[c + (l.map (fun kv => penaltySpec kv.2)).sum]]
  | [], c, _ => by simp
  | kv :: rest, c, h => by
    rw [List.foldl_cons]
    have hkv : kv.2.structured_head ≠ [] := h kv (List.mem_cons_self kv rest)
    rw [get_regularization_eq_penaltySpec kv.2 hkv]
    rw [show addMatL [[c]] [[penaltySpec kv.2]] = [[c + penaltySpec kv.2]] from rfl]
    rw [foldl_addMatL_penalty rest (c + penaltySpec kv.2)
      (fun x hx => h x (List.mem_cons_of_mem kv hx))]
    rw [List.map_cons, List.sum_cons, add_assoc]

/-- Claim C6: the composite network's `get_regularization` equals the exact
sum over all registered parameter sub-networks of the penalty
`structured_weights · P · structured_weightsᵗ` (as the 1×1 tensor the code
produces), provided each sub-network has at least one structured weight. -/
theorem get_regularization_eq_sum_penalties {D : Type} (s : SddrNet D)
    (h : ∀ kv ∈ s.single_parameter_sddr_list, kv.2.structured_head ≠ []) :
    SddrNet.get_regularization s =
      [[((s.single_parameter_sddr_list.map (fun kv => penaltySpec kv.2)).sum : ℚ)]] := by
  unfold SddrNet.get_regularization
  rw [foldl_addMatL_penalty s.single_parameter_sddr_list 0 h, zero_add]

/-- Witness for C6 on a one-parameter network. -/
theorem get_regularization_eq_sum_penalties_witness :
    (∀ kv ∈ (SddrNet.init famTriv [("eta", infoC5)] winit1).single_parameter_sddr_list,
        kv.2.structured_head ≠ []) ∧
    SddrNet.get_regularization (SddrNet.init famTriv [("eta", infoC5)] winit1) =
      [[(((SddrNet.init famTriv [("eta", infoC5)] winit1).single_parameter_sddr_list.map
          (fun kv => penaltySpec kv.2)).sum : ℚ)]] := by
  have hproof : ∀ kv ∈ (SddrNet.init famTriv
      [("eta", infoC5)] winit1).single_parameter_sddr_list,
      kv.2.structured_head ≠ [] := by
    intro kv hkv
    rw [show (SddrNet.init famTriv [("eta", infoC5)] winit1).single_parameter_sddr_list =
        [("eta", Sddr_Param_Net.init infoC5 winit1)] from rfl, List.mem_singleton] at hkv
    subst hkv
    show ([1] : List ℚ) ≠ []
    simp
  exact ⟨hproof, get_regularization_eq_sum_penalties _ hproof⟩

/-- Claim C8 (amended): for every family collaborator and weight
initializer, construction with an empty parameter registry succeeds,
yielding a network object with no sub-networks, no distribution instance
yet, and zero total regularization. -/
theorem init_empty_registry_state {D : Type} (family_class : Family D)
    (winit : ℕ → List ℚ) :
    (SddrNet.init family_class [] winit).single_parameter_sddr_list = [] ∧
    (SddrNet.init family_class [] winit).distribution_layer = none ∧
    SddrNet.get_regularization (SddrNet.init family_class [] winit) = [[0]] :=
  ⟨rfl, rfl, rfl⟩

/-! ### Claim C9: `SddrNet.forward` iterates over the batch dictionary -/

/-- A key absent from an association list's key column looks up to `none`. -/
theorem lookupA_eq_none_of_not_mem {β : Type} :
    ∀ (l : List (String × β)) (k : String), k ∉ l.map Prod.fst → lookupA l k = none
  | [], _, _ => rfl
  | (k1, v) :: rest, k, h => by
    have h1 : k1 ≠ k := by
      intro heq
      apply h
      rw [List.map_cons, heq]
      exact List.mem_cons_self k (rest.map Prod.fst)
    have h2 : k ∉ rest.map Prod.fst := by
      intro hm
      apply h
      rw [List.map_cons]
      exact List.mem_cons_of_mem k1 hm
    unfold lookupA
    rw [if_neg h1]
    exact lookupA_eq_none_of_not_mem rest k h2

/-- A `mapM` over `Option` fails as soon as any element fails. -/
theorem mapM_eq_none_of_elem_none {α β : Type} (f : α → Option β) :
    ∀ (l : List α) (x : α), x ∈ l → f x = none → List.mapM f l = none
  | [], x, hx, _ => absurd hx (by simp)
  | a :: rest, x, hx, hfx => by
    rw [List.mapM_cons]
    cases ha : f a with
    | none => rfl
    | some b =>
      have hx' : x ∈ rest := by
        rcases List.mem_cons.mp hx with h | h
        · subst h
          rw [hfx] at ha
          exact absurd ha (by simp)
        · exact h
      simp only [optBind_some]
      rw [mapM_eq_none_of_elem_none f rest x hx' hfx]
      rfl

/-- A key-preserving `mapM` preserves the key column. -/
theorem mapM_keys {α β : Type} (f : String × α → Option (String × β))
    (hf : ∀ x y, f x = some y → y.1 = x.1) :
    ∀ (l : List (String × α)) (res : List (String × β)),
      List.mapM f l = some res → res.map Prod.fst = l.map Prod.fst
  | [], res, h => by
    rw [show List.mapM f [] = some [] from rfl] at h
    cases h
    rfl
  | x :: rest, res, h => by
    rw [List.mapM_cons] at h
    cases hx : f x with
    | none => rw [hx] at h; exact absurd h (by simp)
    | some y =>
      rw [hx] at h
      simp only [optBind_some] at h
      cases hr : List.mapM f rest with
      | none => rw [hr] at h; exact absurd h (by simp)
      | some ys =>
        rw [hr] at h
        simp only [optBind_some, optPure_eq_some, Option.some.injEq] at h
        subst h
        rw [List.map_cons, List.map_cons, mapM_keys f hf rest ys hr, hf x y hx]

/-- The `pred` mapping built by `SddrNet.forward` has exactly the supplied
batch dictionary's keys. -/
theorem predDict_keys {D : Type} (qr : Mat → Mat) (s : SddrNet D)
    (datadict : List (String × List (String × Mat))) (pred : List (String × Mat))
    (h : SddrNet.predDict qr s datadict = some pred) :
    pred.map Prod.fst = datadict.map Prod.fst := by
  unfold SddrNet.predDict at h
  refine mapM_keys _ ?_ datadict pred h
  intro x y hxy
  cases h1 : lookupA s.single_parameter_sddr_list x.1 with
  | none => rw [h1] at hxy; exact absurd hxy (by simp)
  | some net =>
    rw [h1] at hxy
    simp only [optBind_some] at hxy
    cases h2 : Sddr_Param_Net.forward qr net x.2 with
    | none => rw [h2] at hxy; exact absurd hxy (by simp)
    | some p =>
      rw [h2] at hxy
      simp only [optBind_some, optPure_eq_some, Option.some.injEq] at hxy
      rw [← hxy]

/-- A batch entry whose key names no registered sub-network makes the whole
prediction loop fail. -/
theorem predDict_none_of_unregistered {D : Type} (qr : Mat → Mat) (s : SddrNet D)
    (datadict : List (String × List (String × Mat))) (k : String)
    (hk : k ∈ datadict.map Prod.fst)
    (hnone : lookupA s.single_parameter_sddr_list k = none) :
    SddrNet.predDict qr s datadict = none := by
  obtain ⟨pd, hpd, hpd1⟩ := List.mem_map.mp hk
  unfold SddrNet.predDict
  apply mapM_eq_none_of_elem_none _ datadict pd hpd
  show (do
      let sddr_net ← lookupA s.single_parameter_sddr_list pd.1
      let p ← Sddr_Param_Net.forward qr sddr_net pd.2
      pure (pd.1, p)) = none
  rw [hpd1, hnone]
  rfl

/-- Claim C9: `SddrNet.forward` iterates over the supplied batch mapping's
keys, not over the registered parameter names: a batch key naming no
registered sub-network aborts the pass with a lookup failure, while a
registered parameter absent from the batch is silently skipped — the
mapping handed to the family transform carries exactly the batch's keys, so
the absent parameter's raw prediction is missing from it. -/
theorem sddrnet_forward_datadict_keyed {D : Type} (qr : Mat → Mat) (s : SddrNet D)
    (datadict : List (String × List (String × Mat))) :
    (∀ k, k ∈ datadict.map Prod.fst →
        lookupA s.single_parameter_sddr_list k = none →
        SddrNet.forward qr s datadict = none) ∧
    (∀ pn (pred : List (String × Mat)),
        SddrNet.predDict qr s datadict = some pred →
        pn ∉ datadict.map Prod.fst → lookupA pred pn = none) := by
  constructor
  · intro k hk hnone
    unfold SddrNet.forward
    rw [predDict_none_of_unregistered qr s datadict k hk hnone]
    rfl
  · intro pn pred hpred hpn
    apply lookupA_eq_none_of_not_mem
    rw [predDict_keys qr s datadict pred hpred]
    exact hpn

/-- A one-parameter composite network (parameter "eta"). -/
def net9 : SddrNet Unit := SddrNet.init famTriv [("eta", infoC5)] winit1

/-- A batch dictionary whose only key names no registered parameter. -/
def dd9bad : List (String × List (String × Mat)) :=
  [("bogus", [("structured", [[1]])])]

/-- A batch dictionary for the registered parameter "eta" (zero samples). -/
def dd9good : List (String × List (String × Mat)) :=
  [("eta", [("structured", [])])]

/-- Witness for C9: an unregistered batch key aborts the pass, and a
parameter missing from the batch is missing from the prediction mapping. -/
theorem sddrnet_forward_datadict_keyed_witness :
    SddrNet.forward qrId net9 dd9bad = none ∧
    lookupA [("eta", ([] : Mat))] "scale" = none := by
  constructor
  · exact (sddrnet_forward_datadict_keyed qrId net9 dd9bad).1 "bogus"
      (by simp [dd9bad]) (by rfl)
  · exact (sddrnet_forward_datadict_keyed qrId net9 dd9good).2 "scale"
      [("eta", ([] : Mat))] rfl (by simp [dd9good])

/-! ### Claim C10: `SddrNet.forward` leaves the regularization alone -/

/-- Claim C10: a successful `forward` only stores the fresh distribution
instance and resets the scratch `regularization` attribute to zero; the
sub-network registry (weights, penalty matrices) is untouched, so
`get_regularization` returns the same value after the call as before. -/
theorem forward_frame {D : Type} (qr : Mat → Mat) (s : SddrNet D)
    (datadict : List (String × List (String × Mat))) (s' : SddrNet D) (dl : D)
    (h : SddrNet.forward qr s datadict = some (s', dl)) :
    s' = { s with regularization := some 0, distribution_layer := some dl } ∧
    SddrNet.get_regularization s' = SddrNet.get_regularization s := by
  unfold SddrNet.forward at h
  cases hm : SddrNet.predDict qr s datadict with
  | none => rw [hm] at h; exact absurd h (by simp)
  | some pred =>
    rw [hm] at h
    simp only [optBind_some, optPure_eq_some, Option.some.injEq, Prod.mk.injEq] at h
    obtain ⟨h1, h2⟩ := h
    subst h2
    constructor
    · exact h1.symm
    · rw [← h1]
      rfl

/-- An empty composite network, for exercising `forward_frame`. -/
def net10 : SddrNet Unit := SddrNet.init famTriv [] winit1

/-- Witness for C10 on an empty network and empty batch. -/
theorem forward_frame_witness :
    ({ net10 with regularization := some 0, distribution_layer := some () } =
      { net10 with regularization := some 0, distribution_layer := some () }) ∧
    SddrNet.get_regularization
        { net10 with regularization := some 0, distribution_layer := some () } =
      SddrNet.get_regularization net10 :=
  forward_frame qrId net10 []
    { net10 with regularization := some 0, distribution_layer := some () } () rfl

end PySDDR
